import Mathlib

/-!
Verification development for the `netreg` repository (greenelab/netreg).

The two source files embedded here are `data_models.py` (class `DataModel`:
loading, scaling, factorization backends PCA/NMF/PLIER, weight-matrix
combination, reconstruction scoring) and `utilities/classify_pytorch.py`
(class `TorchLR`: hyperparameter sampling, inner cross-validation search,
logistic-regression training).

Modelling conventions:
* pandas DataFrames are `Frame`s: row labels, column labels and a rational
  list-of-rows payload.  Matrix entries are `ℚ` (every concrete float in the
  claims is a rational); transcendental steps of the reconstruction scorer
  (`np.log`, `np.exp`) are taken in `ℝ` via coercion.
* Python attribute assignment is explicit state passing; an attribute that
  may not have been assigned yet is an `Option` field, and reading an unset
  attribute (Python `AttributeError`) or a raised exception is modelled by
  `Except String` / an explicit error component.
* sklearn fitted estimators (`PCA`, `NMF`, scalers) are opaque: the fitted
  transform is an abstract function argument, since the claims below concern
  the control flow around them, never their numerics.
-/

namespace Netreg

/-- A pandas DataFrame: row index labels, column labels and entries
(list of rows, each a list of rationals). -/
structure Frame where
  rowLabels : List String
  colLabels : List String
  data : List (List ℚ)
  deriving Repr, DecidableEq

namespace Frame

/-- Number of rows (pandas `df.shape[0]`). -/
def nrows (f : Frame) : Nat := f.data.length

/-- Number of columns (pandas `df.shape[1]`). -/
def ncols (f : Frame) : Nat := f.colLabels.length

end Frame

/-! ## Reconstruction scorer: `DataModel._approx_keras_binary_cross_entropy`

Source (`data_models.py`, lines 335-361): the reconstruction `x` is clipped
elementwise into `[ε, 1-ε]` (`x[x < epsilon] = epsilon` then
`x[x > 1 - epsilon] = 1 - epsilon`), then `x = np.log(x / (1 - x))` and the
result is `np.mean(p * np.mean(-x * z + np.log(1 + np.exp(x)), axis=-1))`.
The matrices are lists of rows; the inner `np.mean(..., axis=-1)` is the
row mean, the outer `np.mean` the mean over rows. -/

/-- Keras default clipping constant `epsilon = 1e-07`. -/
def kerasEpsilon : ℚ := 1 / 10000000

/-- One entry of the clip step of `_approx_keras_binary_cross_entropy`:
`x[x < epsilon] = epsilon` followed by `x[x > (1 - epsilon)] = (1 - epsilon)`.
(The two sequential masked assignments coincide with this conditional for
`epsilon ≤ 1 - epsilon`, which holds at the Keras default.) -/
def clipEntry (epsilon x : ℚ) : ℚ :=
  if x < epsilon then epsilon
  else if x > 1 - epsilon then 1 - epsilon
  else x

/-- Elementwise clip of a matrix (list of rows). -/
def clipMatrix (epsilon : ℚ) (x : List (List ℚ)) : List (List ℚ) :=
  x.map (fun row => row.map (clipEntry epsilon))

/-- Arithmetic mean of a list of reals (`np.mean`; `0` on the empty list,
where numpy returns NaN — none of the claims touches empty input). -/
noncomputable def rmean (l : List ℝ) : ℝ := l.sum / l.length

/-- The logit applied after clipping: `x = np.log(x / (1 - x))`. -/
noncomputable def logitR (x : ℚ) : ℝ := Real.log ((x : ℝ) / (1 - (x : ℝ)))

/-- Pointwise cross-entropy term `- x * z + np.log(1 + np.exp(x))` where `x`
is already the logit of the (clipped) reconstruction entry. -/
noncomputable def bceTerm (x z : ℚ) : ℝ :=
  -(logitR x) * (z : ℝ) + Real.log (1 + Real.exp (logitR x))

/-- Row mean `np.mean(- x * z + np.log(1 + np.exp(x)), axis=-1)` for one
row pair, after the logit; rows are paired entrywise. -/
noncomputable def bceRowMean (xs zs : List ℚ) : ℝ :=
  rmean ((xs.zip zs).map (fun p => bceTerm p.1 p.2))

/-- `DataModel._approx_keras_binary_cross_entropy(x, z, p, epsilon)`:
clip `x` into `[ε, 1-ε]`, take logits, and return
`np.mean(p * np.mean(- x * z + np.log(1 + np.exp(x)), axis=-1))`. -/
noncomputable def approx_keras_binary_cross_entropy
    (x z : List (List ℚ)) (p : ℚ) (epsilon : ℚ := kerasEpsilon) : ℝ :=
  let xc := clipMatrix epsilon x
  rmean ((xc.zip z).map (fun rows => (p : ℝ) * bceRowMean rows.1 rows.2))

/-- The same computation with the clip step removed — the comparator the
spec's clipping-invariance sentence asks for (not a function of the source:
the source always clips). -/
noncomputable def bceWithoutClip (x z : List (List ℚ)) (p : ℚ) : ℝ :=
  rmean ((x.zip z).map (fun rows => (p : ℝ) * bceRowMean rows.1 rows.2))

/-! ## `DataModel.combine_weight_matrix`

Source (`data_models.py`, lines 242-254): collect `pca_weights`,
`nmf_weights`, `plier_weights` for the backends that have been run,
`pd.concat(all_weight, axis=0).T`, then rename a column `'Unnamed: 0'`
to `'entrez_gene'`.  Row-concatenation is modelled for weight frames sharing
their gene column labels (the situation of the claim: all backends fitted on
the same gene set), where `pd.concat` stacks the rows and keeps the common
columns. -/

/-- `pd.concat(frames, axis=0)` for frames sharing column labels: row labels
and data rows are concatenated in order; columns are those of the first
frame. -/
def concatRows (frames : List Frame) : Frame where
  rowLabels := frames.flatMap (·.rowLabels)
  colLabels := (frames.headD ⟨[], [], []⟩).colLabels
  data := frames.flatMap (·.data)

/-- List-of-rows transpose (`DataFrame.T` on the payload). -/
def transposeData (d : List (List ℚ)) : List (List ℚ) :=
  match d with
  | [] => []
  | r :: _ => (List.range r.length).map (fun j => d.map (fun row => row.getD j 0))

/-- `DataFrame.T`: swap row and column labels and transpose the payload. -/
def Frame.T (f : Frame) : Frame where
  rowLabels := f.colLabels
  colLabels := f.rowLabels
  data := transposeData f.data

/-- `.rename({'Unnamed: 0': 'entrez_gene'}, axis='columns')`. -/
def renameUnnamed (f : Frame) : Frame :=
  { f with colLabels :=
      f.colLabels.map (fun s => if s = "Unnamed: 0" then "entrez_gene" else s) }

/-- `DataModel.combine_weight_matrix`: each argument is `some` weight frame
when the corresponding backend has been run (`hasattr(self, '*_df')`),
`none` otherwise. -/
def combine_weight_matrix (pcaW nmfW plierW : Option Frame) : Frame :=
  let all_weight := pcaW.toList ++ nmfW.toList ++ plierW.toList
  renameUnnamed (concatRows all_weight).T

/-! ## `DataModel.__init__`

Source (`data_models.py`, lines 24-68).  Order of events matters for the
claims:
1. `self.df` is set from `filename` (via `pd.read_table`) or from the `df`
   argument;
2. if `select_columns` is truthy, line 46 evaluates
   `self.df.iloc[:, select_columns]` — a positional indexer out of bounds
   for the training matrix raises `IndexError` here; otherwise the subset
   and `other_df` are computed and then `if self.test_df is not None:` is
   evaluated — but `self.test_df` is only assigned at line 61, after this
   block, so this read raises `AttributeError` (no instance attribute
   `test_df` exists yet), whatever the `test_df` argument was;
3. `self.num_samples, self.num_genes = self.df.shape`;
4. `self.test_df = test_df`; only when `test_filename is not None and
   test_df is None` is the test matrix read from file and the
   `assert self.num_genes == self.num_test_genes` shape check executed.

`pd.read_table` is abstracted as a function from filename to `Frame`.
`select_columns` is a list of column positions; Python truthiness of the
default `False` / an empty list is `selectColumns ≠ []`. -/

/-- The attribute state of a `DataModel` after a successful `__init__`.
Fields that `__init__` may leave unset are `Option`s. -/
structure DMState where
  filename : Option String
  df : Frame
  other_df : Option Frame
  test_filename : Option String
  test_df : Option Frame
  num_samples : Nat
  num_genes : Nat
  deriving Repr, DecidableEq

/-- `df.iloc[:, cols]`: keep the column positions in `cols`, in order. -/
def ilocCols (f : Frame) (cols : List Nat) : Frame where
  rowLabels := f.rowLabels
  colLabels := cols.map (fun j => f.colLabels.getD j "")
  data := f.data.map (fun row => cols.map (fun j => row.getD j 0))

/-- `DataModel.__init__`.  `read_table` abstracts `pd.read_table` (the file
system is external); an exception is an `Except.error` carrying the Python
error. -/
def DataModel.init (read_table : String → Frame)
    (filename : Option String) (df : Frame) (selectColumns : List Nat)
    (test_filename : Option String) (test_df : Option Frame) :
    Except String DMState :=
  let df0 := match filename with
    | none => df
    | some f => read_table f
  if selectColumns ≠ [] then
    if selectColumns.all (fun j => j < df0.ncols) then
      -- `subset_df` (via `ilocCols`) and `other_df` are computed, then
      -- `if self.test_df is not None:` reads an attribute assigned only
      -- later in `__init__`; the subset is discarded by the exception.
      Except.error "AttributeError: 'DataModel' object has no attribute 'test_df'"
    else
      -- line 46: `self.df.iloc[:, select_columns]` with an out-of-range
      -- position fails before `self.test_df` is ever read.
      Except.error "IndexError: positional indexers are out-of-bounds"
  else
    let st : DMState :=
      { filename := filename
        df := df0
        other_df := none
        test_filename := test_filename
        test_df := test_df
        num_samples := df0.nrows
        num_genes := df0.ncols }
    match test_filename, test_df with
    | some tf, none =>
        let t := read_table tf
        if st.num_genes = t.ncols then
          Except.ok { st with test_df := some t }
        else
          Except.error "AssertionError: train and test sets must have same number of genes"
    | _, _ => Except.ok st

/-! ## `DataModel.transform`

Source (`data_models.py`, lines 71-93).  `self.transformation = how` is
assigned first; then a scaler is fitted and applied for
`how ∈ {'zscore', 'zeroone'}`, and any other string raises
`ValueError('how must be either "zscore" or "zeroone".')` — after the
`transformation` attribute has already been overwritten.  The scalers are
opaque: `fitStd`/`fitMinmax` abstract `StandardScaler().fit` /
`MinMaxScaler().fit` and `apply` abstracts `.transform` (re-wrapped into a
frame with the original labels, as the source does). -/

/-- Scaling-related attribute state of a `DataModel`. -/
structure TransformState (S : Type) where
  transformation : Option String
  transform_fit : Option S
  transform_test_fit : Option S
  df : Frame
  test_df : Option Frame
  deriving Repr, DecidableEq

/-- `DataModel.transform(how)`: returns the attribute state after the call
together with the raised error, if any (Python leaves the mutated `self`
visible to the caller even when the call raises). -/
def DataModel.transform {S : Type} (fitStd fitMinmax : Frame → S)
    (apply : S → Frame → List (List ℚ))
    (st : TransformState S) (how : String) :
    TransformState S × Option String :=
  let st1 := { st with transformation := some how }
  if how = "zscore" ∨ how = "zeroone" then
    let fit := if how = "zscore" then fitStd st.df else fitMinmax st.df
    let df' : Frame := { st.df with data := apply fit st.df }
    let st2 := { st1 with transform_fit := some fit, df := df' }
    match st.test_df with
    | none => (st2, none)
    | some t =>
        let tfit := if how = "zscore" then fitStd t else fitMinmax t
        let t' : Frame := { t with data := apply tfit t }
        ({ st2 with transform_test_fit := some tfit, test_df := some t' }, none)
  else
    (st1, some "ValueError: how must be either \x22zscore\x22 or \x22zeroone\x22.")

/-! ## `DataModel.pca` and `DataModel.nmf`

Source (`data_models.py`, lines 99-133).  Both fit an estimator on
`self.df`, store the embedding (`pca_df` / `nmf_df`) and the weights
(`pca_weights` / `nmf_weights`), and then:

    if transform_df:
        out_df = self.<fit>.transform(self.df)
        return out_df
    if transform_test_df:
        self.<backend>_test_df = self.<fit>.transform(self.test_df)

so when `transform_df` is true the method returns before the
`transform_test_df` branch is ever reached.  The fitted estimator's
`transform` is abstracted as `tr : Frame → List (List ℚ)` (its
`fit_transform` output on `self.df` as `fitT`); `transform(None)` when no
test matrix is attached raises, modelled as an error. -/

/-- Backend-related attribute state touched by `pca` / `nmf`: the shared
input matrices plus the per-backend embedding/weights/test-embedding
attributes (`none` = attribute never assigned). -/
structure BackendState where
  df : Frame
  test_df : Option Frame
  emb_df : Option Frame
  weights : Option Frame
  test_emb : Option (List (List ℚ))
  deriving Repr, DecidableEq

/-- Common body of `DataModel.pca` / `DataModel.nmf` (the two methods differ
only in the estimator and attribute names): store the embedding and
weights, then honor the two flags with the source's early return.  Returns
the updated attribute state and the value returned to the caller. -/
def DataModel.runBackend (prefix_ : String) (fitT : Frame → List (List ℚ))
    (components : List (List ℚ)) (tr : Frame → List (List ℚ))
    (st : BackendState) (n_components : Nat)
    (transform_df transform_test_df : Bool) :
    Except String (BackendState × Option (List (List ℚ))) :=
  let colnames := (List.range n_components).map (fun x => prefix_ ++ "_" ++ toString x)
  let emb : Frame := ⟨st.df.rowLabels, colnames, fitT st.df⟩
  let wts : Frame := ⟨colnames, st.df.colLabels, components⟩
  let st1 := { st with emb_df := some emb, weights := some wts }
  if transform_df then
    Except.ok (st1, some (tr st.df))
  else if transform_test_df then
    match st.test_df with
    | none => Except.error "TypeError: transform of None"
    | some t => Except.ok ({ st1 with test_emb := some (tr t) }, none)
  else
    Except.ok (st1, none)

/-- `DataModel.pca(n_components, transform_df, transform_test_df)`:
`fitT` abstracts `PCA(...).fit_transform(self.df)`, `components` the fitted
`pca_fit.components_` payload, `tr` the fitted `pca_fit.transform`. -/
def DataModel.pca (fitT : Frame → List (List ℚ)) (components : List (List ℚ))
    (tr : Frame → List (List ℚ)) (st : BackendState)
    (n_components : Nat) (transform_df transform_test_df : Bool) :
    Except String (BackendState × Option (List (List ℚ))) :=
  DataModel.runBackend "pca" fitT components tr st n_components
    transform_df transform_test_df

/-- `DataModel.nmf(n_components, transform_df, transform_test_df, ...)`:
same structure as `pca` with the NMF estimator. -/
def DataModel.nmf (fitT : Frame → List (List ℚ)) (components : List (List ℚ))
    (tr : Frame → List (List ℚ)) (st : BackendState)
    (n_components : Nat) (transform_df transform_test_df : Bool) :
    Except String (BackendState × Option (List (List ℚ))) :=
  DataModel.runBackend "nmf" fitT components tr st n_components
    transform_df transform_test_df

/-! ## `DataModel.plier`

Source (`data_models.py`, lines 136-190).  After the (cached) external
PLIER run — abstracted here by the two output frames it produces — the
method sets `plier_df` and `plier_weights`, and then unconditionally
evaluates

    test_df_filtered = self.test_df[self.plier_weights.columns.astype('str')]

before either flag is consulted.  When `self.test_df` is `None` this raises
`TypeError: 'NoneType' object is not subscriptable`, whatever the flags. -/

/-- `df[cols]` for a label list: column subset by labels; `none` (KeyError)
when some label is absent. -/
def subsetByLabels (f : Frame) (cols : List String) : Option Frame :=
  if cols.all (fun c => f.colLabels.contains c) then
    some { rowLabels := f.rowLabels
           colLabels := cols
           data := f.data.map (fun row =>
             cols.map (fun c =>
               (row.getD ((f.colLabels.indexOf c)) 0))) }
  else none

/-- plier-related attribute state. -/
structure PlierState where
  df : Frame
  test_df : Option Frame
  plier_df : Option Frame
  plier_weights : Option Frame
  plier_test_df : Option (List (List ℚ))
  deriving Repr, DecidableEq

/-- `DataModel.plier(n_components, transform_df, transform_test_df, seed)`:
`outZ` and `outB` are the external tool's `_z.tsv` / `_b.tsv` outputs (as
read back by `pd.read_csv`; the subprocess boundary is external), and
`nmfTransform` abstracts `_plier_on_test_data`'s sklearn solve.  Returns
the updated state and the value returned to the caller. -/
def DataModel.plier (outZ outB : Frame)
    (nmfTransform : Frame → Frame → List (List ℚ)) (st : PlierState)
    (transform_df transform_test_df : Bool) :
    Except String (PlierState × Option Frame) :=
  let plier_df := outB.T
  let plier_weights := outZ.T
  let st1 := { st with plier_df := some plier_df, plier_weights := some plier_weights }
  match st.test_df with
  | none => Except.error "TypeError: 'NoneType' object is not subscriptable"
  | some t =>
      match subsetByLabels t plier_weights.colLabels with
      | none => Except.error "KeyError"
      | some test_df_filtered =>
          if transform_df then
            Except.ok (st1, some plier_df)
          else if transform_test_df then
            Except.ok
              ({ st1 with
                  plier_test_df := some (nmfTransform test_df_filtered plier_weights) },
                none)
          else
            Except.ok (st1, none)

/-! ## `TorchLR` — `utilities/classify_pytorch.py`

The imbalance weight of `torch_model` (lines 164-165), the constructor's
search short-circuit (lines 42-54) with `train_torch_model` (lines 97-116),
and the inner-CV search `torch_param_selection` / `torch_tuning`
(lines 247-329). -/

/-- `np.bincount(y)` for a list of naturals: counts of `0 .. max(y)`
(the empty array for empty input). -/
def bincount (y : List Nat) : List Nat :=
  match y with
  | [] => []
  | _ => (List.range (y.foldl max 0 + 1)).map (fun i => y.count i)

/-- Lines 164-165 of `torch_model`:
`train_count = np.bincount(y_train); pos_weight = train_count[0] / train_count[1]`.
Out-of-range indexing (`IndexError`) is `none`.  (numpy scalar division by a
zero count would give `inf` with a warning; with binary labels a present
index 1 has a nonzero count, so that case cannot arise here.) -/
def posWeight (y_train : List Nat) : Option ℚ :=
  let train_count := bincount y_train
  match train_count.get? 0, train_count.get? 1 with
  | some c0, some c1 => some ((c0 : ℚ) / (c1 : ℚ))
  | _, _ => none

/-- A hyperparameter candidate grid / params map: parameter names with
their value lists, in Python dict insertion order.  `V` is the value type
(mixed numeric in the source). -/
abbrev ParamsMap (V : Type) : Type := List (String × List V)

/-- `max(len(vs) for k, vs in params_map.items())`: `none` is Python's
`ValueError` on an empty sequence. -/
def maxParamsLength {V : Type} (pm : ParamsMap V) : Option Nat :=
  match pm.map (fun kv => kv.2.length) with
  | [] => none
  | l :: ls => some (ls.foldl max l)

/-- `TorchLR.get_params_map(param_choices, num_iters)`: sort the items by
name and draw `num_iters` choices per parameter with the seeded random
source, abstracted as `choice : Nat → List V → V` (draw index ↦ chosen
value; `random.choice`'s stream is external). -/
def get_params_map {V : Type} (choice : Nat → List V → V)
    (param_choices : ParamsMap V) (num_iters : Nat) : ParamsMap V :=
  let param_options :=
    param_choices.mergeSort (fun a b => a.1 ≤ b.1)
  param_options.map (fun kv =>
    (kv.1, (List.range num_iters).map (fun i => choice i kv.2)))

/-- `TorchLR.__init__` (the `params_map` part, lines 42-51): when some
parameter has more than one choice, replace the grid by `num_iters` sampled
combinations; otherwise keep it as given.  Empty grid: `max()` raises. -/
def TorchLR.initParamsMap {V : Type} (choice : Nat → List V → V)
    (params_map : ParamsMap V) (num_iters : Nat) :
    Except String (ParamsMap V) :=
  match maxParamsLength params_map with
  | none => Except.error "ValueError: max() arg is an empty sequence"
  | some m =>
      if m > 1 then
        Except.ok (get_params_map choice params_map num_iters)
      else
        Except.ok params_map

/-- `{k: vs[0] for k, vs in self.params_map.items()}` (line 109); `vs[0]`
on an empty list is an `IndexError`. -/
def firstCombination {V : Type} : ParamsMap V → Except String (List (String × V))
  | [] => Except.ok []
  | kv :: rest =>
    match kv.2.head?, firstCombination rest with
    | some v, Except.ok acc => Except.ok ((kv.1, v) :: acc)
    | none, _ => Except.error "IndexError: list index out of range"
    | some _, Except.error e => Except.error e

/-- The part of `TorchLR.train_torch_model` that chooses `best_params`
(lines 104-111): run the inner-CV search only when some parameter has more
than one value.  Returns whether the search ran and the chosen parameters;
the search outcome is abstracted as `searchBest` (it is analysed separately
in `torch_param_selection` below). -/
def train_torch_model_best {V : Type} (searchBest : List (String × V))
    (params_map : ParamsMap V) :
    Except String (Bool × List (String × V)) :=
  match maxParamsLength params_map with
  | none => Except.error "ValueError: max() arg is an empty sequence"
  | some m =>
      if m > 1 then
        Except.ok (true, searchBest)
      else
        match firstCombination params_map with
        | Except.ok best => Except.ok (false, best)
        | Except.error e => Except.error e

/-- One row of the trial-record table built by `torch_tuning` /
`torch_param_selection`.  The per-parameter value columns of the source's
table repeat `params_map[param][ix]` and play no role in the aggregation
(`sort_values(by='loss')` looks only at the loss mean), so they are not
carried. -/
structure TrialRecord where
  param_set : Nat
  split : String
  loss : ℚ
  auroc : ℚ
  fold : Nat
  deriving Repr, DecidableEq

/-- `TorchLR.torch_tuning` on one subtrain/tune split: for each candidate
index `ix < num_iters`, train (`torch_model`, abstracted by the loss and
AUROC outcomes `subtrainLoss`, `tuneLoss`, `subtrainAuroc`, `tuneAuroc` as
functions of `ix`) and append a `'train'` row then a `'tune'` row, both with
`param_set = ix`.  The `fold` column is attached by the caller (line 264),
here passed in. -/
def torch_tuning (num_iters : Nat)
    (subtrainLoss tuneLoss subtrainAuroc tuneAuroc : Nat → ℚ)
    (fold : Nat) : List TrialRecord :=
  (List.range num_iters).flatMap (fun ix =>
    [ { param_set := ix, split := "train", loss := subtrainLoss ix,
        auroc := subtrainAuroc ix, fold := fold },
      { param_set := ix, split := "tune", loss := tuneLoss ix,
        auroc := tuneAuroc ix, fold := fold } ])

/-- The concatenated trial-record table of `torch_param_selection`
(lines 257-268): folds are numbered `1 .. num_inner_folds`
(`enumerate(kf.split(X_train), 1)`), and each fold's `torch_tuning` result
is appended in order.  The per-fold `torch_model` outcomes are abstracted
as functions of (fold, candidate index). -/
def selectionRecords (num_inner_folds num_iters : Nat)
    (subtrainLoss tuneLoss subtrainAuroc tuneAuroc : Nat → Nat → ℚ) :
    List TrialRecord :=
  (List.range num_inner_folds).flatMap (fun f =>
    torch_tuning num_iters (subtrainLoss (f + 1)) (tuneLoss (f + 1))
      (subtrainAuroc (f + 1)) (tuneAuroc (f + 1)) (f + 1))

/-- The tune-split rows of a record table for one parameter-set id
(`results_df.loc[results_df['train/tune'] == 'tune']` restricted to the
group of `param_set = j`). -/
def tuneRows (records : List TrialRecord) (j : Nat) : List TrialRecord :=
  records.filter (fun r => r.split = "tune" ∧ r.param_set = j)

/-- Mean tune loss of one parameter-set id (one entry of the `'loss'`
column of `groupby('param_set').mean()` over the tune rows). -/
def meanTuneLoss (records : List TrialRecord) (j : Nat) : ℚ :=
  ((tuneRows records j).map (fun r => r.loss)).sum / (tuneRows records j).length

/-- The distinct parameter-set ids of the tune rows, in ascending order —
the group keys of `groupby('param_set')` (pandas sorts group keys). -/
def tuneGroupKeys (records : List TrialRecord) : List Nat :=
  ((records.filter (fun r => r.split = "tune")).map (fun r => r.param_set)).dedup.mergeSort
    (fun a b => a ≤ b)

/-- One step of scanning the grouped means: keep the id with the smaller
mean tune loss (the earlier one on ties). -/
def pickBetter (records : List TrialRecord) (acc : Option Nat) (j : Nat) :
    Option Nat :=
  match acc with
  | none => some j
  | some b =>
      if meanTuneLoss records j < meanTuneLoss records b then some j else some b

/-- The `best_ix` of `torch_param_selection` (lines 272-279): sort the
grouped means by loss and take the first row's `param_set`.  `sort_values`
with the default kind need not be stable, so among tied minima any one may
come first; the model takes the earliest minimising group key, which is
one outcome of the source's sort (the claims below use only minimality). -/
def bestParamSetIx (records : List TrialRecord) : Option Nat :=
  (tuneGroupKeys records).foldl (pickBetter records) none

/-! ## Theorems -/

/-- C10 counterexample: the truthy column subset `[3]` on a one-column
training matrix makes line 46's `self.df.iloc[:, select_columns]` fail
with an `IndexError` before `self.test_df` is ever read — not the
`AttributeError` the claim asserts for every truthy `select_columns`. -/
theorem C10_counterexample :
    DataModel.init (fun _ => ⟨[], [], []⟩) none ⟨["s"], ["g"], [[1]]⟩ [3] none
        (some ⟨["t"], ["g"], [[2]]⟩)
      = Except.error "IndexError: positional indexers are out-of-bounds" ∧
    "IndexError: positional indexers are out-of-bounds"
      ≠ "AttributeError: 'DataModel' object has no attribute 'test_df'" := by
  constructor
  · rfl
  · decide

/-- C10 amended: for every truthy `select_columns` whose positions are all
in bounds for the training matrix, `DataModel.__init__` reads the
`test_df` attribute before it is ever assigned, so construction raises an
`AttributeError` regardless of whether a test matrix was supplied; a
truthy subset with an out-of-bounds position instead fails at the `iloc`
step with an `IndexError`, still before the `test_df` read. -/
theorem C10_select_columns_attribute_error
    (read_table : String → Frame) (filename : Option String) (df : Frame)
    (selectColumns : List Nat) (test_filename : Option String)
    (test_df : Option Frame) (h : selectColumns ≠ []) :
    ((∀ j ∈ selectColumns,
        j < (match filename with | none => df | some f => read_table f).ncols) →
      DataModel.init read_table filename df selectColumns test_filename test_df
        = Except.error "AttributeError: 'DataModel' object has no attribute 'test_df'") ∧
    ((∃ j ∈ selectColumns,
        ¬ j < (match filename with | none => df | some f => read_table f).ncols) →
      DataModel.init read_table filename df selectColumns test_filename test_df
        = Except.error "IndexError: positional indexers are out-of-bounds") := by
  constructor
  · intro hin
    have hall : selectColumns.all
        (fun j => j < (match filename with | none => df | some f => read_table f).ncols)
          = true := by
      rw [List.all_eq_true]
      intro j hj
      exact decide_eq_true (hin j hj)
    unfold DataModel.init
    simp [h, hall]
  · intro hout
    have hall : selectColumns.all
        (fun j => j < (match filename with | none => df | some f => read_table f).ncols)
          = false := by
      obtain ⟨j, hj, hlt⟩ := hout
      rw [List.all_eq_false]
      exact ⟨j, hj, by simpa using hlt⟩
    unfold DataModel.init
    simp [h, hall]

theorem C10_witness :
    DataModel.init (fun _ => ⟨[], [], []⟩) none ⟨["s"], ["g"], [[1]]⟩ [0] none
        (some ⟨["t"], ["g"], [[2]]⟩)
      = Except.error "AttributeError: 'DataModel' object has no attribute 'test_df'" ∧
    DataModel.init (fun _ => ⟨[], [], []⟩) none ⟨["s"], ["g"], [[1]]⟩ [0, 5] none
        none
      = Except.error "IndexError: positional indexers are out-of-bounds" :=
  ⟨(C10_select_columns_attribute_error (fun _ => ⟨[], [], []⟩) none
      ⟨["s"], ["g"], [[1]]⟩ [0] none (some ⟨["t"], ["g"], [[2]]⟩) (by decide)).1
      (by decide),
   (C10_select_columns_attribute_error (fun _ => ⟨[], [], []⟩) none
      ⟨["s"], ["g"], [[1]]⟩ [0, 5] none none (by decide)).2
      ⟨5, by decide, by decide⟩⟩

/-- C8: the train/test gene-count check runs only when the test set is
loaded from a file (`test_filename` given, `test_df` absent): a preloaded
`test_df` is accepted by the constructor without any shape comparison (for
any shapes of `df` and `t`), while a from-file test matrix with a different
gene count fails the assertion. -/
theorem C8_shape_check_only_for_file_loaded_test
    (read_table : String → Frame) (filename : Option String) (df : Frame)
    (test_filename : Option String) (t : Frame) (tf : String)
    (hmismatch :
      (match filename with | none => df | some f => read_table f).ncols
        ≠ (read_table tf).ncols) :
    (∃ st, DataModel.init read_table filename df [] test_filename (some t)
        = Except.ok st ∧ st.test_df = some t) ∧
    DataModel.init read_table filename df [] (some tf) none
      = Except.error "AssertionError: train and test sets must have same number of genes" := by
  unfold DataModel.init
  constructor
  · cases filename <;> cases test_filename <;> exact ⟨_, rfl, rfl⟩
  · cases filename <;> simp_all

theorem C8_witness :
    (∃ st, DataModel.init (fun _ => ⟨["u"], ["a", "b"], [[1, 2]]⟩) none
        ⟨["s"], ["g"], [[5]]⟩ [] none (some ⟨["t"], ["x", "y", "z"], [[1, 2, 3]]⟩)
        = Except.ok st ∧ st.test_df = some ⟨["t"], ["x", "y", "z"], [[1, 2, 3]]⟩) ∧
    DataModel.init (fun _ => ⟨["u"], ["a", "b"], [[1, 2]]⟩) none
        ⟨["s"], ["g"], [[5]]⟩ [] (some "test.tsv") none
      = Except.error "AssertionError: train and test sets must have same number of genes" :=
  C8_shape_check_only_for_file_loaded_test (fun _ => ⟨["u"], ["a", "b"], [[1, 2]]⟩)
    none ⟨["s"], ["g"], [[5]]⟩ none ⟨["t"], ["x", "y", "z"], [[1, 2, 3]]⟩
    "test.tsv" (by decide)

/-- C9: `plier` subsets `self.test_df` by the weight matrix's columns
before either flag is consulted, so on a data model with no test matrix
attached the call fails with a `TypeError` for every combination of
`transform_df` / `transform_test_df` — even when no test projection was
requested. -/
theorem C9_plier_fails_without_test_df (outZ outB : Frame)
    (nmfTransform : Frame → Frame → List (List ℚ)) (df : Frame)
    (plier_df plier_weights : Option Frame)
    (plier_test_df : Option (List (List ℚ)))
    (transform_df transform_test_df : Bool) :
    DataModel.plier outZ outB nmfTransform
        ⟨df, none, plier_df, plier_weights, plier_test_df⟩
        transform_df transform_test_df
      = Except.error "TypeError: 'NoneType' object is not subscriptable" := rfl

/-- C6 counterexample: `transform` with the unrecognized mode `"minmax"`
raises, but the resulting attribute state is not the pre-call state — the
stored transformation name has already been overwritten with the invalid
mode.  (Scalers instantiated trivially; the claim fails on the
`transformation` attribute alone.) -/
theorem C6_counterexample :
    (DataModel.transform (S := Unit) (fun _ => ()) (fun _ => ())
        (fun _ f => f.data)
        ⟨none, none, none, ⟨["s"], ["g"], [[1]]⟩, none⟩ "minmax").2
      = some "ValueError: how must be either \x22zscore\x22 or \x22zeroone\x22." ∧
    (DataModel.transform (S := Unit) (fun _ => ()) (fun _ => ())
        (fun _ f => f.data)
        ⟨none, none, none, ⟨["s"], ["g"], [[1]]⟩, none⟩ "minmax").1
      ≠ ⟨none, none, none, ⟨["s"], ["g"], [[1]]⟩, none⟩ := by
  constructor
  · rfl
  · intro h
    exact Option.noConfusion (congrArg TransformState.transformation h)

/-- C6 amended: for every mode string other than `"zscore"` and
`"zeroone"`, `transform` raises the `ValueError` and leaves the fitted
scalers and the training and test matrices exactly as they were — but the
stored transformation name is updated to the invalid mode string before
the raise (the abort is not fully atomic). -/
theorem C6_invalid_mode_partial_atomicity {S : Type}
    (fitStd fitMinmax : Frame → S) (apply : S → Frame → List (List ℚ))
    (st : TransformState S) (how : String)
    (h1 : how ≠ "zscore") (h2 : how ≠ "zeroone") :
    DataModel.transform fitStd fitMinmax apply st how
      = ({ st with transformation := some how },
         some "ValueError: how must be either \x22zscore\x22 or \x22zeroone\x22.") := by
  unfold DataModel.transform
  simp [h1, h2]

theorem C6_witness :
    DataModel.transform (S := Unit) (fun _ => ()) (fun _ => ())
        (fun _ f => f.data)
        ⟨none, none, none, ⟨["s"], ["g"], [[1]]⟩, none⟩ "standardize"
      = (⟨some "standardize", none, none, ⟨["s"], ["g"], [[1]]⟩, none⟩,
         some "ValueError: how must be either \x22zscore\x22 or \x22zeroone\x22.") :=
  C6_invalid_mode_partial_atomicity (fun _ => ()) (fun _ => ())
    (fun _ f => f.data) ⟨none, none, none, ⟨["s"], ["g"], [[1]]⟩, none⟩
    "standardize" (by decide) (by decide)

/-- C1 counterexample: calling `pca` (resp. `nmf`) with `transform_df=True`
and `transform_test_df=True` on a model with a test matrix attached returns
the in-sample embedding but leaves the test-embedding attribute unset
(`test_emb = none` in the resulting state): the early `return out_df` skips
the `transform_test_df` branch, so the flags are not independent. -/
theorem C1_counterexample :
    DataModel.pca (fun f => f.data) [[1]] (fun f => f.data)
        ⟨⟨["s"], ["g"], [[1]]⟩, some ⟨["t"], ["g"], [[2]]⟩, none, none, none⟩
        1 true true
      = Except.ok
          (⟨⟨["s"], ["g"], [[1]]⟩, some ⟨["t"], ["g"], [[2]]⟩,
            some ⟨["s"], ["pca_0"], [[1]]⟩, some ⟨["pca_0"], ["g"], [[1]]⟩,
            none⟩, some [[1]]) ∧
    DataModel.nmf (fun f => f.data) [[1]] (fun f => f.data)
        ⟨⟨["s"], ["g"], [[1]]⟩, some ⟨["t"], ["g"], [[2]]⟩, none, none, none⟩
        1 true true
      = Except.ok
          (⟨⟨["s"], ["g"], [[1]]⟩, some ⟨["t"], ["g"], [[2]]⟩,
            some ⟨["s"], ["nmf_0"], [[1]]⟩, some ⟨["nmf_0"], ["g"], [[1]]⟩,
            none⟩, some [[1]]) := by
  exact ⟨rfl, rfl⟩

/-- C1 amended: the two flags of `pca`/`nmf` are not independent.  Whenever
`transform_df` is true the call returns the in-sample embedding to the
caller and leaves the test-embedding attribute untouched, whatever
`transform_test_df` is; the test projection is computed and stored exactly
when `transform_df` is false and `transform_test_df` is true (with a test
matrix attached), and then nothing is returned. -/
theorem C1_flags_not_independent (fitT : Frame → List (List ℚ))
    (components : List (List ℚ)) (tr : Frame → List (List ℚ))
    (st : BackendState) (n : Nat) (t : Frame) (ht : st.test_df = some t) :
    (∀ ttdf, ∃ st1, DataModel.pca fitT components tr st n true ttdf
        = Except.ok (st1, some (tr st.df)) ∧ st1.test_emb = st.test_emb) ∧
    (∃ st1, DataModel.pca fitT components tr st n false true
        = Except.ok (st1, none) ∧ st1.test_emb = some (tr t)) ∧
    (∀ ttdf, ∃ st1, DataModel.nmf fitT components tr st n true ttdf
        = Except.ok (st1, some (tr st.df)) ∧ st1.test_emb = st.test_emb) ∧
    (∃ st1, DataModel.nmf fitT components tr st n false true
        = Except.ok (st1, none) ∧ st1.test_emb = some (tr t)) := by
  unfold DataModel.pca DataModel.nmf DataModel.runBackend
  rw [ht]
  exact ⟨fun ttdf => ⟨_, rfl, rfl⟩, ⟨_, rfl, rfl⟩,
         fun ttdf => ⟨_, rfl, rfl⟩, ⟨_, rfl, rfl⟩⟩

theorem C1_witness :
    (∀ ttdf, ∃ st1, DataModel.pca (fun f => f.data) [[1]] (fun f => f.data)
        ⟨⟨["s"], ["g"], [[1]]⟩, some ⟨["t"], ["g"], [[2]]⟩, none, none, none⟩
        1 true ttdf
        = Except.ok (st1, some [[1]]) ∧ st1.test_emb = none) ∧
    (∃ st1, DataModel.pca (fun f => f.data) [[1]] (fun f => f.data)
        ⟨⟨["s"], ["g"], [[1]]⟩, some ⟨["t"], ["g"], [[2]]⟩, none, none, none⟩
        1 false true
        = Except.ok (st1, none) ∧ st1.test_emb = some [[2]]) ∧
    (∀ ttdf, ∃ st1, DataModel.nmf (fun f => f.data) [[1]] (fun f => f.data)
        ⟨⟨["s"], ["g"], [[1]]⟩, some ⟨["t"], ["g"], [[2]]⟩, none, none, none⟩
        1 true ttdf
        = Except.ok (st1, some [[1]]) ∧ st1.test_emb = none) ∧
    (∃ st1, DataModel.nmf (fun f => f.data) [[1]] (fun f => f.data)
        ⟨⟨["s"], ["g"], [[1]]⟩, some ⟨["t"], ["g"], [[2]]⟩, none, none, none⟩
        1 false true
        = Except.ok (st1, none) ∧ st1.test_emb = some [[2]]) :=
  C1_flags_not_independent (fun f => f.data) [[1]] (fun f => f.data)
    ⟨⟨["s"], ["g"], [[1]]⟩, some ⟨["t"], ["g"], [[2]]⟩, none, none, none⟩
    1 ⟨["t"], ["g"], [[2]]⟩ rfl

/-- C7 counterexample: with all three backends run, each contributing one
latent factor over two shared genes, `combine_weight_matrix` returns a
matrix with two rows (the genes) — not `1 + 1 + 1` rows — while its column
count is `3`: the transpose puts one factor per column, not per row. -/
theorem C7_counterexample :
    (combine_weight_matrix
        (some ⟨["pca_0"], ["g1", "g2"], [[1, 2]]⟩)
        (some ⟨["nmf_0"], ["g1", "g2"], [[3, 4]]⟩)
        (some ⟨["LV1"], ["g1", "g2"], [[5, 6]]⟩)).nrows ≠ 1 + 1 + 1 ∧
    (combine_weight_matrix
        (some ⟨["pca_0"], ["g1", "g2"], [[1, 2]]⟩)
        (some ⟨["nmf_0"], ["g1", "g2"], [[3, 4]]⟩)
        (some ⟨["LV1"], ["g1", "g2"], [[5, 6]]⟩)).rowLabels.length ≠ 1 + 1 + 1 ∧
    (combine_weight_matrix
        (some ⟨["pca_0"], ["g1", "g2"], [[1, 2]]⟩)
        (some ⟨["nmf_0"], ["g1", "g2"], [[3, 4]]⟩)
        (some ⟨["LV1"], ["g1", "g2"], [[5, 6]]⟩)).ncols = 1 + 1 + 1 := by
  refine ⟨?_, ?_, rfl⟩ <;> decide

/-- C7 amended: when all three backends have been run with `k_pca`, `k_nmf`
and `k_plier` factors (weight matrices with that many labelled rows), the
matrix returned by `combine_weight_matrix` has exactly
`k_pca + k_nmf + k_plier` columns — one column per combined latent factor —
and its rows are labelled by the genes (the PCA weight matrix's columns). -/
theorem C7_combined_weight_matrix_columns (pcaW nmfW plierW : Frame)
    (k_pca k_nmf k_plier : Nat)
    (h1 : pcaW.rowLabels.length = k_pca)
    (h2 : nmfW.rowLabels.length = k_nmf)
    (h3 : plierW.rowLabels.length = k_plier) :
    (combine_weight_matrix (some pcaW) (some nmfW) (some plierW)).ncols
        = k_pca + k_nmf + k_plier ∧
    (combine_weight_matrix (some pcaW) (some nmfW) (some plierW)).rowLabels
        = pcaW.colLabels := by
  unfold combine_weight_matrix renameUnnamed Frame.T concatRows Frame.ncols
  simp [h1, h2, h3, Nat.add_assoc]

theorem C7_witness :
    (combine_weight_matrix
        (some ⟨["pca_0", "pca_1"], ["g1", "g2", "g3"], [[1, 2, 3], [4, 5, 6]]⟩)
        (some ⟨["nmf_0"], ["g1", "g2", "g3"], [[7, 8, 9]]⟩)
        (some ⟨["LV1"], ["g1", "g2", "g3"], [[1, 1, 1]]⟩)).ncols = 2 + 1 + 1 ∧
    (combine_weight_matrix
        (some ⟨["pca_0", "pca_1"], ["g1", "g2", "g3"], [[1, 2, 3], [4, 5, 6]]⟩)
        (some ⟨["nmf_0"], ["g1", "g2", "g3"], [[7, 8, 9]]⟩)
        (some ⟨["LV1"], ["g1", "g2", "g3"], [[1, 1, 1]]⟩)).rowLabels
      = ["g1", "g2", "g3"] :=
  C7_combined_weight_matrix_columns
    ⟨["pca_0", "pca_1"], ["g1", "g2", "g3"], [[1, 2, 3], [4, 5, 6]]⟩
    ⟨["nmf_0"], ["g1", "g2", "g3"], [[7, 8, 9]]⟩
    ⟨["LV1"], ["g1", "g2", "g3"], [[1, 1, 1]]⟩ 2 1 1 rfl rfl rfl

/-- `List.foldl max` is bounded below by its accumulator. -/
theorem le_foldl_max (y : List Nat) : ∀ a : Nat, a ≤ y.foldl max a := by
  induction y with
  | nil => intro a; exact le_rfl
  | cons x xs ih => intro a; exact le_trans (le_max_left a x) (ih (max a x))

/-- `List.foldl max` is bounded below by every element. -/
theorem mem_le_foldl_max {y : List Nat} {v : Nat} (hv : v ∈ y) :
    ∀ a : Nat, v ≤ y.foldl max a := by
  induction y with
  | nil => cases hv
  | cons x xs ih =>
    intro a
    rcases List.mem_cons.mp hv with h | h
    · rw [h]; exact le_trans (le_max_right a x) (le_foldl_max xs (max a x))
    · exact ih h (max a x)

/-- `List.foldl max` is bounded above by any common bound. -/
theorem foldl_max_le (y : List Nat) (k : Nat) (hk : ∀ v ∈ y, v ≤ k) :
    ∀ a : Nat, a ≤ k → y.foldl max a ≤ k := by
  induction y with
  | nil => intro a ha; exact ha
  | cons x xs ih =>
    intro a ha
    exact ih (fun v hv => hk v (List.mem_cons_of_mem _ hv)) _
      (max_le ha (hk x (List.mem_cons_self _ _)))

/-- `np.bincount` of a nonempty 0/1 label list is the pair of class
counts. -/
theorem bincount_binary {y : List Nat} (hbin : ∀ v ∈ y, v = 0 ∨ v = 1)
    (h1 : 1 ∈ y) : bincount y = [y.count 0, y.count 1] := by
  have hmax : y.foldl max 0 = 1 := by
    have hle : y.foldl max 0 ≤ 1 :=
      foldl_max_le y 1 (fun v hv => by rcases hbin v hv with h | h <;> simp [h]) 0
        (by norm_num)
    have hge : 1 ≤ y.foldl max 0 := mem_le_foldl_max h1 0
    omega
  obtain ⟨x, xs, rfl⟩ : ∃ x xs, y = x :: xs := by
    cases y with
    | nil => cases h1
    | cons x xs => exact ⟨x, xs, rfl⟩
  show (List.range ((x :: xs).foldl max 0 + 1)).map (fun i => (x :: xs).count i)
      = [(x :: xs).count 0, (x :: xs).count 1]
  rw [hmax]
  rfl

/-- C5 counterexample: on a training split whose labels are all `1` (zero
members of class 0), the imbalance-weight computation does not abort: it
returns the weight `0` (`train_count[0] / train_count[1] = 0 / 3`), so no
`ConfigurationError` — or any error — is raised there. -/
theorem C5_counterexample :
    posWeight [1, 1, 1] = some 0 ∧ ¬ posWeight [1, 1, 1] = none := by
  have h : posWeight [1, 1, 1] = some (((0 : ℕ) : ℚ) / ((3 : ℕ) : ℚ)) := rfl
  rw [h]
  norm_num
  exact Option.noConfusion

/-- C5 amended: on a training split containing both classes (0/1 labels),
the positive-class weight is `count(class 0) / count(class 1)`.  With zero
members of one class the code does not raise a descriptive
`ConfigurationError`: labels that are all `0` make `train_count[1]` an
out-of-range access (an `IndexError`), while labels that are all `1`
silently produce the weight `0`. -/
theorem C5_pos_weight_behaviour :
    (∀ y : List Nat, (∀ v ∈ y, v = 0 ∨ v = 1) → 0 ∈ y → 1 ∈ y →
      posWeight y = some ((y.count 0 : ℚ) / (y.count 1 : ℚ))) ∧
    (∀ y : List Nat, y ≠ [] → (∀ v ∈ y, v = 0) → posWeight y = none) ∧
    (∀ y : List Nat, (∀ v ∈ y, v = 1) → 1 ∈ y → posWeight y = some 0) := by
  refine ⟨?_, ?_, ?_⟩
  · intro y hbin _ h1
    unfold posWeight
    rw [bincount_binary hbin h1]
    rfl
  · intro y hne h0
    have hmax : y.foldl max 0 = 0 :=
      Nat.le_antisymm (foldl_max_le y 0 (fun v hv => le_of_eq (h0 v hv)) 0 le_rfl)
        (Nat.zero_le _)
    obtain ⟨x, xs, rfl⟩ : ∃ x xs, y = x :: xs := by
      cases y with
      | nil => cases hne rfl
      | cons x xs => exact ⟨x, xs, rfl⟩
    unfold posWeight
    have : bincount (x :: xs)
        = (List.range ((x :: xs).foldl max 0 + 1)).map (fun i => (x :: xs).count i) := rfl
    rw [this, hmax]
    rfl
  · intro y hall h1
    have hc0 : y.count 0 = 0 := by
      rw [List.count_eq_zero]
      intro h0
      exact absurd (hall 0 h0) (by decide)
    unfold posWeight
    rw [bincount_binary (fun v hv => Or.inr (hall v hv)) h1]
    show some ((y.count 0 : ℚ) / (y.count 1 : ℚ)) = some 0
    rw [hc0]
    norm_num

theorem C5_witness :
    posWeight [0, 1, 1] = some ((List.count 0 [0, 1, 1] : ℚ) / (List.count 1 [0, 1, 1] : ℚ)) ∧
    posWeight [0, 0] = none ∧
    posWeight [1, 1] = some 0 :=
  ⟨C5_pos_weight_behaviour.1 [0, 1, 1] (by decide) (by decide) (by decide),
   C5_pos_weight_behaviour.2.1 [0, 0] (by decide) (by decide),
   C5_pos_weight_behaviour.2.2 [1, 1] (by decide) (by decide)⟩

/-- An all-singleton grid has maximum choice length `1`. -/
theorem maxParamsLength_singletons {V : Type} {pm : ParamsMap V}
    (hne : pm ≠ []) (h1 : ∀ kv ∈ pm, kv.2.length = 1) :
    maxParamsLength pm = some 1 := by
  obtain ⟨kv, rest, rfl⟩ : ∃ kv rest, pm = kv :: rest := by
    cases pm with
    | nil => cases hne rfl
    | cons kv rest => exact ⟨kv, rest, rfl⟩
  unfold maxParamsLength
  simp only [List.map_cons]
  have hhd : kv.2.length = 1 := h1 kv (List.mem_cons_self _ _)
  rw [hhd]
  have hub : (rest.map (fun kv => kv.2.length)).foldl max 1 ≤ 1 := by
    refine foldl_max_le _ 1 ?_ _ le_rfl
    intro v hv
    obtain ⟨kv', hkv', rfl⟩ := List.mem_map.mp hv
    exact le_of_eq (h1 kv' (List.mem_cons_of_mem _ hkv'))
  have hlb : 1 ≤ (rest.map (fun kv => kv.2.length)).foldl max 1 :=
    le_foldl_max _ _
  exact congrArg some (Nat.le_antisymm hub hlb)

/-- On an all-singleton grid, `{k: vs[0] for ...}` succeeds and pairs each
parameter with its unique candidate. -/
theorem firstCombination_singletons {V : Type} :
    ∀ pm : ParamsMap V, (∀ kv ∈ pm, kv.2.length = 1) →
    ∃ best, firstCombination pm = Except.ok best ∧
      List.Forall₂ (fun kv b => b.1 = kv.1 ∧ kv.2 = [b.2]) pm best := by
  intro pm
  induction pm with
  | nil => intro _; exact ⟨[], rfl, List.Forall₂.nil⟩
  | cons kv rest ih =>
    intro h
    obtain ⟨v, hv⟩ : ∃ v, kv.2 = [v] := by
      have hl := h kv (List.mem_cons_self _ _)
      cases e : kv.2 with
      | nil => rw [e] at hl; cases hl
      | cons a l =>
        rw [e] at hl
        simp only [List.length_cons, Nat.add_left_eq_self, List.length_eq_zero] at hl
        exact ⟨a, by rw [hl]⟩
    obtain ⟨best, hb, hf⟩ := ih (fun kv' h' => h kv' (List.mem_cons_of_mem _ h'))
    refine ⟨(kv.1, v) :: best, ?_, List.Forall₂.cons ⟨rfl, hv⟩ hf⟩
    unfold firstCombination
    rw [hv, hb]
    rfl

/-- C4: for a candidate grid in which every parameter has exactly one
value, the constructor keeps the grid unsampled (for every seeded choice
source and every requested trial count), and `train_torch_model` skips the
inner cross-validation search (search flag `false`, whatever result the
search would have produced) and trains the final model directly with that
single combination as `best_params`. -/
theorem C4_singleton_grid_short_circuit {V : Type} (choice : Nat → List V → V)
    (pm : ParamsMap V) (num_iters : Nat) (searchBest : List (String × V))
    (hne : pm ≠ []) (h1 : ∀ kv ∈ pm, kv.2.length = 1) :
    TorchLR.initParamsMap choice pm num_iters = Except.ok pm ∧
    ∃ best, train_torch_model_best searchBest pm = Except.ok (false, best) ∧
      List.Forall₂ (fun kv b => b.1 = kv.1 ∧ kv.2 = [b.2]) pm best := by
  have hm := maxParamsLength_singletons hne h1
  obtain ⟨best, hb, hf⟩ := firstCombination_singletons pm h1
  refine ⟨?_, best, ?_, hf⟩
  · unfold TorchLR.initParamsMap
    rw [hm]
    simp
  · unfold train_torch_model_best
    rw [hm, hb]
    simp

theorem C4_witness :
    TorchLR.initParamsMap (V := ℚ) (fun _ l => l.headD 0)
        [("batch_size", [10]), ("learning_rate", [1 / 100])] 7
      = Except.ok [("batch_size", [10]), ("learning_rate", [1 / 100])] ∧
    ∃ best, train_torch_model_best (V := ℚ) []
        [("batch_size", [10]), ("learning_rate", [1 / 100])]
        = Except.ok (false, best) ∧
      List.Forall₂ (fun kv b => b.1 = kv.1 ∧ kv.2 = [b.2])
        [("batch_size", [10]), ("learning_rate", [1 / 100])] best :=
  C4_singleton_grid_short_circuit (fun _ l => l.headD 0)
    [("batch_size", [10]), ("learning_rate", [1 / 100])] 7 []
    (by decide) (by decide)

/-- The tune rows of one fold's trial table for a given parameter-set id:
exactly the one tune row appended for that candidate, when it is in
range. -/
theorem filter_tune_torch_tuning (I : Nat) (sl tl sa ta : Nat → ℚ) (f j : Nat) :
    (torch_tuning I sl tl sa ta f).filter
        (fun r => r.split = "tune" ∧ r.param_set = j)
      = if j < I then [⟨j, "tune", tl j, ta j, f⟩] else [] := by
  induction I with
  | zero => rfl
  | succ n ih =>
    unfold torch_tuning at ih ⊢
    rw [List.range_succ, List.flatMap_append, List.filter_append, ih]
    by_cases hj : j < n
    · have hjn : n ≠ j := fun e => absurd hj (e ▸ Nat.lt_irrefl j)
      simp [hj, Nat.lt_succ_of_lt hj, List.filter, hjn]
    · by_cases hj2 : j = n
      · subst hj2
        simp [hj, Nat.lt_succ_self, List.filter]
      · have hns : ¬ j < n + 1 := by omega
        have hnj : n ≠ j := fun e => hj2 e.symm
        simp [hj, hns, List.filter, hnj]

/-- The tune rows for an in-range parameter-set id across the whole
concatenated trial table: one row per fold, in fold order. -/
theorem tuneRows_selectionRecords (F I : Nat) (sl tl sa ta : Nat → Nat → ℚ)
    (j : Nat) (hj : j < I) :
    tuneRows (selectionRecords F I sl tl sa ta) j
      = (List.range F).map
          (fun f => ⟨j, "tune", tl (f + 1) j, ta (f + 1) j, f + 1⟩) := by
  induction F with
  | zero => rfl
  | succ n ih =>
    unfold tuneRows selectionRecords at ih ⊢
    rw [List.range_succ, List.flatMap_append, List.filter_append, ih,
      List.map_append]
    congr 1
    show (torch_tuning I (sl (n + 1)) (tl (n + 1)) (sa (n + 1)) (ta (n + 1))
        (n + 1) ++ []).filter
        (fun r : TrialRecord => r.split = "tune" ∧ r.param_set = j) = _
    rw [List.append_nil, filter_tune_torch_tuning, if_pos hj]
    rfl

/-- Every record of the trial table carries a candidate id below
`num_iters`. -/
theorem param_set_lt_of_mem_selectionRecords {F I : Nat}
    {sl tl sa ta : Nat → Nat → ℚ} {r : TrialRecord}
    (hr : r ∈ selectionRecords F I sl tl sa ta) : r.param_set < I := by
  unfold selectionRecords at hr
  obtain ⟨f, _, hr⟩ := List.mem_flatMap.mp hr
  unfold torch_tuning at hr
  obtain ⟨ix, hix, hr⟩ := List.mem_flatMap.mp hr
  simp only [List.mem_cons, List.not_mem_nil, or_false] at hr
  rcases hr with h | h <;> rw [h] <;> exact List.mem_range.mp hix

/-- The group keys of the tune rows are exactly the candidate ids
`0 .. num_iters - 1` (as a set), once at least one fold ran. -/
theorem mem_tuneGroupKeys_iff (F I : Nat) (sl tl sa ta : Nat → Nat → ℚ)
    (hF : 1 ≤ F) (j : Nat) :
    j ∈ tuneGroupKeys (selectionRecords F I sl tl sa ta) ↔ j < I := by
  unfold tuneGroupKeys
  rw [List.mem_mergeSort, List.mem_dedup]
  constructor
  · intro h
    obtain ⟨r, hr, rfl⟩ := List.mem_map.mp h
    exact param_set_lt_of_mem_selectionRecords (List.mem_filter.mp hr).1
  · intro hj
    refine List.mem_map.mpr ⟨⟨j, "tune", tl 1 j, ta 1 j, 1⟩, List.mem_filter.mpr ⟨?_, by rfl⟩, rfl⟩
    unfold selectionRecords
    refine List.mem_flatMap.mpr ⟨0, List.mem_range.mpr hF, ?_⟩
    unfold torch_tuning
    exact List.mem_flatMap.mpr ⟨j, List.mem_range.mpr hj,
      List.mem_cons_of_mem _ (List.mem_cons_self _ _)⟩

/-- Scanning the keys with `pickBetter` from a seeded accumulator yields a
key (or the seed) of minimal mean tune loss among all scanned ones. -/
theorem pickBetter_foldl_spec (records : List TrialRecord) :
    ∀ (l : List Nat) (b : Nat),
    ∃ c, l.foldl (pickBetter records) (some b) = some c ∧
      (c = b ∨ c ∈ l) ∧ meanTuneLoss records c ≤ meanTuneLoss records b ∧
      ∀ j ∈ l, meanTuneLoss records c ≤ meanTuneLoss records j := by
  intro l
  induction l with
  | nil => intro b; exact ⟨b, rfl, Or.inl rfl, le_rfl, by simp⟩
  | cons x xs ih =>
    intro b
    rw [List.foldl_cons]
    have hstep : pickBetter records (some b) x
        = if meanTuneLoss records x < meanTuneLoss records b then some x else some b := rfl
    rw [hstep]
    by_cases h : meanTuneLoss records x < meanTuneLoss records b
    · obtain ⟨c, hc, hmem, hle, hall⟩ := ih x
      rw [if_pos h]
      refine ⟨c, hc, ?_, le_trans hle (le_of_lt h), ?_⟩
      · rcases hmem with h' | h'
        · exact Or.inr (h' ▸ List.mem_cons_self _ _)
        · exact Or.inr (List.mem_cons_of_mem _ h')
      · intro j hjmem
        rcases List.mem_cons.mp hjmem with h' | h'
        · rw [h']; exact hle
        · exact hall j h'
    · obtain ⟨c, hc, hmem, hle, hall⟩ := ih b
      rw [if_neg h]
      refine ⟨c, hc, ?_, hle, ?_⟩
      · rcases hmem with h' | h'
        · exact Or.inl h'
        · exact Or.inr (List.mem_cons_of_mem _ h')
      · intro j hjmem
        rcases List.mem_cons.mp hjmem with h' | h'
        · rw [h']; exact le_trans hle (not_lt.mp h)
        · exact hall j h'

/-- C2: with more than one candidate combination and at least one inner
fold, the parameter-set id selected by `torch_param_selection` is a
candidate id that appears in the returned trial-record table with exactly
`num_inner_folds` rows labelled `'tune'`, and its mean tune loss is ≤ the
mean tune loss of every other candidate id. -/
theorem C2_best_params_min_mean_tune_loss (F I : Nat)
    (sl tl sa ta : Nat → Nat → ℚ) (hF : 1 ≤ F) (hI : 2 ≤ I) :
    ∃ b, bestParamSetIx (selectionRecords F I sl tl sa ta) = some b ∧
      b < I ∧
      (tuneRows (selectionRecords F I sl tl sa ta) b).length = F ∧
      ∀ j < I, meanTuneLoss (selectionRecords F I sl tl sa ta) b
        ≤ meanTuneLoss (selectionRecords F I sl tl sa ta) j := by
  have h0 : (0 : Nat) ∈ tuneGroupKeys (selectionRecords F I sl tl sa ta) :=
    (mem_tuneGroupKeys_iff F I sl tl sa ta hF 0).mpr (by omega)
  obtain ⟨k, rest, hkeys⟩ :
      ∃ k rest, tuneGroupKeys (selectionRecords F I sl tl sa ta) = k :: rest := by
    cases e : tuneGroupKeys (selectionRecords F I sl tl sa ta) with
    | nil => rw [e] at h0; cases h0
    | cons k rest => exact ⟨k, rest, rfl⟩
  obtain ⟨c, hc, hmem, hlek, hall⟩ :=
    pickBetter_foldl_spec (selectionRecords F I sl tl sa ta) rest k
  have hcmem : c ∈ tuneGroupKeys (selectionRecords F I sl tl sa ta) := by
    rw [hkeys]
    rcases hmem with h | h
    · exact h ▸ List.mem_cons_self _ _
    · exact List.mem_cons_of_mem _ h
  have hcI : c < I := (mem_tuneGroupKeys_iff F I sl tl sa ta hF c).mp hcmem
  refine ⟨c, ?_, hcI, ?_, ?_⟩
  · unfold bestParamSetIx
    rw [hkeys]
    exact hc
  · rw [tuneRows_selectionRecords F I sl tl sa ta c hcI]
    simp
  · intro j hj
    have hjmem : j ∈ tuneGroupKeys (selectionRecords F I sl tl sa ta) :=
      (mem_tuneGroupKeys_iff F I sl tl sa ta hF j).mpr hj
    rw [hkeys] at hjmem
    rcases List.mem_cons.mp hjmem with h | h
    · subst h
      exact hlek
    · exact hall j h

theorem C2_witness :
    ∃ b, bestParamSetIx
        (selectionRecords 2 2 (fun _ _ => 0) (fun _ j => (j : ℚ))
          (fun _ _ => 0) (fun _ _ => 0)) = some b ∧
      b < 2 ∧
      (tuneRows (selectionRecords 2 2 (fun _ _ => 0) (fun _ j => (j : ℚ))
          (fun _ _ => 0) (fun _ _ => 0)) b).length = 2 ∧
      ∀ j < 2, meanTuneLoss (selectionRecords 2 2 (fun _ _ => 0)
          (fun _ j => (j : ℚ)) (fun _ _ => 0) (fun _ _ => 0)) b
        ≤ meanTuneLoss (selectionRecords 2 2 (fun _ _ => 0)
            (fun _ j => (j : ℚ)) (fun _ _ => 0) (fun _ _ => 0)) j :=
  C2_best_params_min_mean_tune_loss 2 2 (fun _ _ => 0) (fun _ j => (j : ℚ))
    (fun _ _ => 0) (fun _ _ => 0) (by omega) (by omega)

/-- The clip step is the identity on an entry already inside
`[ε, 1-ε]`. -/
theorem clipEntry_eq_self {v : ℚ} (h1 : kerasEpsilon ≤ v)
    (h2 : v ≤ 1 - kerasEpsilon) : clipEntry kerasEpsilon v = v := by
  unfold clipEntry
  rw [if_neg (not_lt.mpr h1), if_neg (not_lt.mpr h2)]

/-- The clip step is the identity on a row of in-range entries. -/
theorem clipRow_of_bounded :
    ∀ r : List ℚ, (∀ v ∈ r, kerasEpsilon ≤ v ∧ v ≤ 1 - kerasEpsilon) →
    r.map (clipEntry kerasEpsilon) = r := by
  intro r
  induction r with
  | nil => intro _; rfl
  | cons v vs ih =>
    intro h
    rw [List.map_cons,
      clipEntry_eq_self (h v (List.mem_cons_self _ _)).1
        (h v (List.mem_cons_self _ _)).2,
      ih (fun w hw => h w (List.mem_cons_of_mem _ hw))]

/-- The clip step is the identity on a matrix of in-range entries. -/
theorem clipMatrix_of_bounded {x : List (List ℚ)}
    (h : ∀ row ∈ x, ∀ v ∈ row, kerasEpsilon ≤ v ∧ v ≤ 1 - kerasEpsilon) :
    clipMatrix kerasEpsilon x = x := by
  unfold clipMatrix
  induction x with
  | nil => rfl
  | cons r rs ih =>
    rw [List.map_cons, clipRow_of_bounded r (h r (List.mem_cons_self _ _)),
      ih (fun row hrow => h row (List.mem_cons_of_mem _ hrow))]

/-- Every clipped entry lands in `[ε, 1-ε]`, and the argument of the logit
of a clipped entry is strictly positive (so `np.log` sees a positive real
and the score is a plain finite real number). -/
theorem clipEntry_bounds (v : ℚ) :
    kerasEpsilon ≤ clipEntry kerasEpsilon v ∧
    clipEntry kerasEpsilon v ≤ 1 - kerasEpsilon ∧
    (0 : ℝ) < (clipEntry kerasEpsilon v : ℝ) / (1 - (clipEntry kerasEpsilon v : ℝ)) := by
  have hb : kerasEpsilon ≤ clipEntry kerasEpsilon v ∧
      clipEntry kerasEpsilon v ≤ 1 - kerasEpsilon := by
    unfold clipEntry kerasEpsilon
    split
    · norm_num
    · split
      · norm_num
      · rename_i hlt hgt
        push_neg at hlt hgt
        exact ⟨hlt, hgt⟩
  refine ⟨hb.1, hb.2, ?_⟩
  have h0 : (0 : ℚ) < clipEntry kerasEpsilon v := by
    have : (0 : ℚ) < kerasEpsilon := by norm_num [kerasEpsilon]
    linarith [hb.1]
  have h1 : clipEntry kerasEpsilon v < 1 := by
    have : (0 : ℚ) < kerasEpsilon := by norm_num [kerasEpsilon]
    linarith [hb.2]
  apply div_pos
  · exact_mod_cast h0
  · have : ((clipEntry kerasEpsilon v : ℚ) : ℝ) < 1 := by exact_mod_cast h1
    linarith

/-- C3: the reconstruction scorer is invariant to clipping on in-range
input — for every reconstruction whose entries all lie in `[ε, 1-ε]`
(ε = 1e-7) the score equals the score computed without the clip step —
and for out-of-range input the entries are clamped into `[ε, 1-ε]` before
scoring (`2.0` becomes `1-ε`), every clipped entry feeds the logit a
strictly positive argument, and the score is the (finite) real number
obtained from the clamped matrix. -/
theorem C3_scorer_clip_invariance :
    (∀ (x z : List (List ℚ)) (p : ℚ),
      (∀ row ∈ x, ∀ v ∈ row, kerasEpsilon ≤ v ∧ v ≤ 1 - kerasEpsilon) →
      approx_keras_binary_cross_entropy x z p = bceWithoutClip x z p) ∧
    (∀ (x z : List (List ℚ)) (p : ℚ),
      approx_keras_binary_cross_entropy x z p
        = bceWithoutClip (clipMatrix kerasEpsilon x) z p) ∧
    clipMatrix kerasEpsilon [[2, 2], [2, 2]]
      = [[1 - kerasEpsilon, 1 - kerasEpsilon],
         [1 - kerasEpsilon, 1 - kerasEpsilon]] ∧
    (∀ v : ℚ, kerasEpsilon ≤ clipEntry kerasEpsilon v ∧
      clipEntry kerasEpsilon v ≤ 1 - kerasEpsilon ∧
      (0 : ℝ) < (clipEntry kerasEpsilon v : ℝ) / (1 - (clipEntry kerasEpsilon v : ℝ))) := by
  refine ⟨?_, ?_, ?_, clipEntry_bounds⟩
  · intro x z p h
    unfold approx_keras_binary_cross_entropy bceWithoutClip
    rw [clipMatrix_of_bounded h]
  · intro x z p
    rfl
  · norm_num [clipMatrix, clipEntry, kerasEpsilon]

theorem C3_witness :
    approx_keras_binary_cross_entropy [[1 / 2, 1 / 4]] [[1, 0]] 2
      = bceWithoutClip [[1 / 2, 1 / 4]] [[1, 0]] 2 :=
  C3_scorer_clip_invariance.1 [[1 / 2, 1 / 4]] [[1, 0]] 2 (by
    intro row hrow v hv
    simp only [List.mem_singleton] at hrow
    subst hrow
    simp only [List.mem_cons, List.not_mem_nil, or_false] at hv
    rcases hv with h | h <;> rw [h] <;> norm_num [kerasEpsilon])

end Netreg
